import Mathlib

/-!
Verification of the dziennik record-management backend, shallowly embedded
from `src/src/main.rs` and `src/src/students/models/delete.rs`.

The embedding models: the Delete route handler and its worker-side store
operation, the JSON-body and path error translators, the Sentry
observability setup, the PORT configuration parsing, and the fixed-size
SyncArbiter worker pool started at process startup.  External effects
(environment variables, the connection pool's `get`, the SQL execution)
are passed in as explicit arguments; Rust panics (`unwrap`/`expect`) are
modelled as the `Except.error` side of an `Except Panic _`.
-/

namespace Dziennik

/-- A Rust panic raised by `unwrap` or `expect`; aborts the executing
thread instead of returning a value. -/
inductive Panic where
  | unwrapFailed
  | expectFailed (msg : String)
deriving DecidableEq

/-- The typed store error `diesel::result::Error` carried in a message's
result (the variants' payloads are irrelevant to the claims). -/
inductive DieselError where
  | databaseError (description : String)
  | notFound
deriving DecidableEq

/-- The connection-pool error returned by `r2d2`'s `Pool::get` when no
connection can be borrowed (pool exhaustion / timeout). -/
inductive R2d2Error where
  | timeout
deriving DecidableEq

/-- A live connection borrowed from the connection pool. -/
structure Conn where
  idx : Nat
deriving DecidableEq

/-- Sentry severity (`sentry::Level`); the translators use `Level::Error`. -/
inductive Level where
  | error
  | warning
  | info
deriving DecidableEq

/-- The uniform JSON error body `JsonError` of main.rs:44-47: a single
`message` string field. -/
structure JsonError where
  message : String
deriving DecidableEq

/-- An HTTP response as the claims observe it: status code plus the
`message` field of its JSON body (both `JsonError` and `DeleteResponse`
are single-message bodies). -/
structure Response where
  status : Nat
  message : String
deriving DecidableEq

/-- `DeleteRequest` (delete.rs:34-37): the Delete protocol message.  Its
only field is the 32-bit identifier `id` (embedded as `Int`; the route's
path decoding, `parseI32` below, guarantees the i32 range). -/
structure DeleteRequest where
  id : Int
deriving DecidableEq

/-- The result type fixed at definition time by
`impl Message for DeleteRequest` (delete.rs:39-41):
`Result<usize, diesel::result::Error>`. -/
def DeleteRequest.Result : Type := Except DieselError Nat

/-- The shape of the result as a function of the message value: it does
not depend on the value, mirroring that Rust fixes it per message TYPE. -/
def messageResultType (_ : DeleteRequest) : Type := DeleteRequest.Result

/-- `Hub::capture_message` (sentry): records the event on the hub when a
client is bound (Sentry was initialized), and is a no-op on a disabled
hub.  The returned list is the sequence of events the sink receives. -/
def captureMessage (hubEnabled : Bool) (msg : String) (lv : Level) :
    List (String × Level) :=
  if hubEnabled then [(msg, lv)] else []

/-- What an error translator produces: the HTTP status, the JSON body, and
the events emitted to the observability sink. -/
structure Translated where
  status : Nat
  body : JsonError
  sinkEvents : List (String × Level)
deriving DecidableEq

/-- `json_error_handler` (main.rs:52-63): formats the decode error's text,
captures it on the request's hub at error severity, and responds
400 Bad Request with the uniform `JsonError` body. -/
def json_error_handler (hubEnabled : Bool) (errText : String) : Translated :=
  { status := 400
    body := { message := errText }
    sinkEvents := captureMessage hubEnabled errText Level.error }

/-- `path_error_handler` (main.rs:67-79): identical translation for a path
segment that cannot be parsed to the expected type. -/
def path_error_handler (hubEnabled : Bool) (errText : String) : Translated :=
  { status := 400
    body := { message := errText }
    sinkEvents := captureMessage hubEnabled errText Level.error }

/-- The delete route handler (delete.rs:8-32).  `dbResult` is the
`Result<usize, diesel::result::Error>` the worker sent back.  The
handler's `.expect("Database error when deleting student")` panics on a
typed store error; on `Ok` it renders 200 with a message naming the
identifier when the affected count is positive, else 400. -/
def delete (id : Int) (dbResult : Except DieselError Nat) :
    Except Panic Response :=
  match dbResult with
  | Except.error _ =>
      Except.error (Panic.expectFailed "Database error when deleting student")
  | Except.ok n =>
      if 0 < n then
        Except.ok
          { status := 200
            message := "Deleted student with id: " ++ toString id ++ "." }
      else
        Except.ok
          { status := 400
            message := "Something went wrong! I only know I deleted "
              ++ toString n ++ " rows though." }

/-- The worker-side store operation, `Handler<DeleteRequest> for Database`
(delete.rs:43-51): `self.0.get().unwrap()` then
`diesel::delete(...).execute(&conn)`.  The pool-get outcome and the SQL
execution are passed as arguments (effects of external collaborators);
the `.unwrap()` on a failed pool get is a panic. -/
def Database.handle (poolGet : Except R2d2Error Conn)
    (execute : Conn → Except DieselError Nat) :
    Except Panic (Except DieselError Nat) :=
  match poolGet with
  | Except.error _ => Except.error Panic.unwrapFailed
  | Except.ok conn => Except.ok (execute conn)

/-- One base-10 digit, else `none`. -/
def digitVal (c : Char) : Option Nat :=
  if c.isDigit then some (c.toNat - 48) else none

/-- Accumulate base-10 digits; `none` on the first non-digit. -/
def parseDigitsAux : List Char → Nat → Option Nat
  | [], acc => some acc
  | c :: cs, acc =>
      match digitVal c with
      | some d => parseDigitsAux cs (acc * 10 + d)
      | none => none

/-- A non-empty all-digit string's value, else `none`. -/
def parseDigits : List Char → Option Nat
  | [] => none
  | l => parseDigitsAux l 0

/-- Range check of Rust's `i32` parsing: magnitude at most 2^31 for a
negative number, at most 2^31 - 1 for a non-negative one. -/
def clampI32 : Bool → Nat → Option Int
  | true, m => if m ≤ 2147483648 then some (-(m : Int)) else none
  | false, m => if m ≤ 2147483647 then some (m : Int) else none

/-- `parseI32` on the string's character list. -/
def parseI32Chars : List Char → Option Int
  | [] => none
  | c :: rest =>
      if c = '-' then (parseDigits rest).bind (clampI32 true)
      else if c = '+' then (parseDigits rest).bind (clampI32 false)
      else (parseDigits (c :: rest)).bind (clampI32 false)

/-- Rust's `str::parse::<i32>` as the actix path extractor applies it to
the `{id}` segment (delete.rs:8, `Path<i32>`): optional sign, one or more
ASCII digits, value within the i32 range. -/
def parseI32 (s : String) : Option Int :=
  parseI32Chars s.data

/-- `parseU16` on the string's character list. -/
def parseU16Chars : List Char → Option Nat
  | [] => none
  | c :: rest =>
      if c = '+' then
        (parseDigits rest).bind (fun n => if n ≤ 65535 then some n else none)
      else
        (parseDigits (c :: rest)).bind
          (fun n => if n ≤ 65535 then some n else none)

/-- Rust's `str::parse::<u16>` (main.rs:107): optional `+`, one or more
ASCII digits, value at most 65535. -/
def parseU16 (s : String) : Option Nat :=
  parseU16Chars s.data

/-- The port computation of main.rs:105-108:
`env::var("PORT").unwrap_or_else(|_| "3000").parse().expect("PORT must be a number")`.
`envPORT` is the environment lookup's outcome; a failed parse is the
`expect` panic. -/
def portOf (envPORT : Option String) : Except Panic Nat :=
  match parseU16 (envPORT.getD "3000") with
  | some n => Except.ok n
  | none => Except.error (Panic.expectFailed "PORT must be a number")

/-- What main.rs:93-102 sets up: Sentry (and its panic handler) are
initialized inside `if let Ok(dsn) = env::var("SENTRY_DSN")`, so both
happen exactly when the variable is set. -/
structure SentrySetup where
  active : Bool
  panicHandlerOn : Bool
deriving DecidableEq

/-- The Sentry bootstrap as a function of the `SENTRY_DSN` lookup. -/
def sentrySetup (dsn : Option String) : SentrySetup :=
  match dsn with
  | some _ => { active := true, panicHandlerOn := true }
  | none => { active := false, panicHandlerOn := false }

/-- The worker count passed to `SyncArbiter::start` at main.rs:119. -/
def syncArbiterWorkers : Nat := 12

/-- The state of the worker pool: one slot per worker, `some msg` while
that worker is executing the blocking store operation for `msg`. -/
structure PoolState where
  slots : List (Option DeleteRequest)
deriving DecidableEq

/-- The pool as `SyncArbiter::start` creates it: `n` workers, all idle. -/
def mkPool (n : Nat) : PoolState :=
  { slots := List.replicate n none }

/-- The pool created at process startup (main.rs:119):
`SyncArbiter::start(12, move || database::Database(pool.clone()))`. -/
def startupPool : PoolState := mkPool syncArbiterWorkers

/-- What a worker does in one transition. -/
inductive WorkerAction where
  | accept (msg : DeleteRequest)
  | complete (msg : DeleteRequest)

/-- Modelled from the spec: the SyncArbiter worker discipline (the arbiter
itself is an external actor library; `database::Database` lives in the
repository's database.rs, which is not under src/).  Worker `i` may accept
a message only while idle and frees its slot only by completing the
operation it is running — one blocking operation to completion before the
next message. -/
inductive PoolStep : PoolState → Nat → WorkerAction → PoolState → Prop where
  | accept (s : PoolState) (i : Nat) (msg : DeleteRequest)
      (hidle : s.slots.get? i = some none) :
      PoolStep s i (WorkerAction.accept msg) { slots := s.slots.set i (some msg) }
  | complete (s : PoolState) (i : Nat) (msg : DeleteRequest)
      (hbusy : s.slots.get? i = some (some msg)) :
      PoolStep s i (WorkerAction.complete msg) { slots := s.slots.set i none }

/-- The error text the actix path deserializer produces when the `{id}`
segment does not parse (external framework; the claims only require that
the translator carries the decode error's text through). -/
def pathDecodeErrText (s : String) : String :=
  "can not parse " ++ s ++ " to a i32"

/-- What one dispatched request produces: the protocol message submitted
to the worker pool (if any), the response, and the sink events. -/
structure DeleteRouteOutcome where
  submitted : Option DeleteRequest
  response : Except Panic Response
  sinkEvents : List (String × Level)

/-- The DELETE /students/\x7bid\x7d route as main.rs:144-146 registers it:
the framework extracts `Path<i32>` first; on failure it invokes the
registered `path_error_handler` and the handler function never runs, so
no `DeleteRequest` is built; on success the `delete` handler builds and
submits `DeleteRequest` and renders the worker's result. -/
def deleteRoute (hubEnabled : Bool) (rawId : String)
    (dbResult : Except DieselError Nat) : DeleteRouteOutcome :=
  match parseI32 rawId with
  | none =>
      let t := path_error_handler hubEnabled (pathDecodeErrText rawId)
      { submitted := none
        response := Except.ok { status := t.status, message := t.body.message }
        sinkEvents := t.sinkEvents }
  | some n =>
      { submitted := some { id := n }
        response := delete n dbResult
        sinkEvents := [] }

/-- Outcome of a JSON-body route: the submitted protocol message (of that
route's message type `γ`), the response, and the sink events. -/
structure JsonRouteOutcome (γ : Type) where
  submitted : Option γ
  response : Response
  sinkEvents : List (String × Level)

/-- Modelled from the spec: the JSON-body routes (students::create,
students::update, login::login) are repository code not under src/.  Per
the spec the framework decodes the body before the handler runs; on
failure it invokes the registered `json_error_handler` and short-circuits
— no protocol message is built; on success the handler builds its message
and renders a response.  `decoded` is the body-decode outcome. -/
def jsonRoute (β γ : Type) (hubEnabled : Bool) (decoded : Except String β)
    (handler : β → γ × Response) : JsonRouteOutcome γ :=
  match decoded with
  | Except.error e =>
      let t := json_error_handler hubEnabled e
      { submitted := none
        response := { status := t.status, message := t.body.message }
        sinkEvents := t.sinkEvents }
  | Except.ok b =>
      { submitted := some (handler b).1
        response := (handler b).2
        sinkEvents := [] }

/-- Any value `clampI32` lets through lies in the i32 range. -/
theorem clampI32_range (b : Bool) (m : Nat) (n : Int)
    (h : clampI32 b m = some n) : -(2 ^ 31) ≤ n ∧ n < 2 ^ 31 := by
  cases b <;> simp only [clampI32] at h <;> split at h <;>
    simp only [Option.some.injEq, reduceCtorEq] at h <;> omega

/-- Any character list `parseI32Chars` accepts lies in the i32 range. -/
theorem parseI32Chars_range (l : List Char) (n : Int)
    (h : parseI32Chars l = some n) : -(2 ^ 31) ≤ n ∧ n < 2 ^ 31 := by
  cases l with
  | nil => simp [parseI32Chars] at h
  | cons c rest =>
      simp only [parseI32Chars] at h
      by_cases hm : c = '-'
      · rw [if_pos hm] at h
        rcases Option.bind_eq_some.mp h with ⟨m, _, hcl⟩
        exact clampI32_range true m n hcl
      · rw [if_neg hm] at h
        by_cases hp : c = '+'
        · rw [if_pos hp] at h
          rcases Option.bind_eq_some.mp h with ⟨m, _, hcl⟩
          exact clampI32_range false m n hcl
        · rw [if_neg hp] at h
          rcases Option.bind_eq_some.mp h with ⟨m, _, hcl⟩
          exact clampI32_range false m n hcl

/-- Any identifier the path decoder accepts lies in the i32 range. -/
theorem parseI32_range (s : String) (n : Int) (h : parseI32 s = some n) :
    -(2 ^ 31) ≤ n ∧ n < 2 ^ 31 :=
  parseI32Chars_range s.data n h

/-- A path segment that does not parse to an i32 is trapped by the path
error translator: 400 and no message built (shared by the claims about
short-circuiting and about the i32 path type). -/
theorem deleteRoute_parse_failure (hub : Bool) (raw : String)
    (db : Except DieselError Nat) (h : parseI32 raw = none) :
    (deleteRoute hub raw db).submitted = none ∧
    (deleteRoute hub raw db).response =
      Except.ok { status := 400, message := pathDecodeErrText raw } := by
  unfold deleteRoute
  rw [h]
  exact ⟨rfl, rfl⟩

/-- C1: when the Delete protocol message returns an affected-row count,
the delete handler responds 200 OK with a JSON message naming the
requested identifier if the count is greater than 0, and 400 Bad Request
with an explanatory JSON message if the count is 0. -/
theorem delete_count_dispatch (id : Int) (n : Nat) :
    (0 < n → delete id (Except.ok n) = Except.ok
      { status := 200
        message := "Deleted student with id: " ++ toString id ++ "." }) ∧
    (n = 0 → delete id (Except.ok n) = Except.ok
      { status := 400
        message := "Something went wrong! I only know I deleted "
          ++ toString n ++ " rows though." }) := by
  constructor
  · intro h
    simp [delete, h]
  · intro h
    subst h
    simp [delete]

/-- Witness for C1 at identifier 7 with counts 1 and 0. -/
theorem delete_count_dispatch_witness :
    delete 7 (Except.ok 1) = Except.ok
      { status := 200
        message := "Deleted student with id: " ++ toString (7 : Int) ++ "." } ∧
    delete 7 (Except.ok 0) = Except.ok
      { status := 400
        message := "Something went wrong! I only know I deleted "
          ++ toString (0 : Nat) ++ " rows though." } :=
  ⟨(delete_count_dispatch 7 1).1 (by decide),
   (delete_count_dispatch 7 0).2 rfl⟩

/-- C2 counterexample: when the connection pool cannot lend a connection,
the worker's `self.0.get().unwrap()` (delete.rs:48) panics — the failure
is NOT surfaced to the caller inside the returned Result, contrary to the
claim. -/
theorem pool_exhaustion_panics :
    Database.handle (Except.error R2d2Error.timeout) (fun _ => Except.ok 1)
        = Except.error Panic.unwrapFailed ∧
    (Database.handle (Except.error R2d2Error.timeout)
        (fun _ => Except.ok 1)).isOk = false :=
  ⟨rfl, rfl⟩

/-- C2 (amended): a failure of the SQL execution itself is captured as a
typed `diesel::result::Error` inside the returned Result, but a
connection-pool failure makes the worker panic via `unwrap` instead of
being returned as an error value. -/
theorem worker_handle_dispatch :
    (∀ (conn : Conn) (execute : Conn → Except DieselError Nat),
      Database.handle (Except.ok conn) execute = Except.ok (execute conn)) ∧
    (∀ (conn : Conn) (e : DieselError),
      Database.handle (Except.ok conn) (fun _ => Except.error e)
        = Except.ok (Except.error e)) ∧
    (∀ (e : R2d2Error) (execute : Conn → Except DieselError Nat),
      Database.handle (Except.error e) execute
        = Except.error Panic.unwrapFailed) :=
  ⟨fun _ _ => rfl, fun _ _ => rfl, fun _ _ => rfl⟩

/-- C3: both error translators respond 400 Bad Request with the uniform
single-message JSON body carrying the decode error's text and emit that
same text to the observability sink at error severity. -/
theorem translators_uniform_400 (m : String) :
    (json_error_handler true m).status = 400 ∧
    (json_error_handler true m).body = { message := m } ∧
    (json_error_handler true m).sinkEvents = [(m, Level.error)] ∧
    (path_error_handler true m).status = 400 ∧
    (path_error_handler true m).body = { message := m } ∧
    (path_error_handler true m).sinkEvents = [(m, Level.error)] :=
  ⟨rfl, rfl, rfl, rfl, rfl, rfl⟩

/-- C4: startup creates the worker pool with exactly 12 worker units, and
a unit accepts a message only while idle — it runs one blocking operation
to completion (freeing its slot) before accepting the next. -/
theorem worker_pool_twelve :
    startupPool.slots.length = 12 ∧
    (∀ (s : PoolState) (i : Nat) (msg : DeleteRequest) (t : PoolState),
      PoolStep s i (WorkerAction.accept msg) t →
        s.slots.get? i = some none) := by
  refine ⟨rfl, ?_⟩
  intro s i msg t h
  cases h with
  | accept a ha => exact ha

/-- Witness for C4: the startup pool's worker 0 is idle, as the accept
step from it requires. -/
theorem worker_pool_twelve_witness :
    startupPool.slots.get? 0 = some none :=
  worker_pool_twelve.2 startupPool 0 { id := 0 }
    { slots := startupPool.slots.set 0 (some { id := 0 }) }
    (PoolStep.accept startupPool 0 { id := 0 } (by decide))

/-- C5: the Delete protocol message carries exactly one integer field (it
is in bijection with its identifier), and its result type is fixed at
definition time — constant in the message value. -/
theorem delete_message_shape :
    Function.Bijective (fun r : DeleteRequest => r.id) ∧
    DeleteRequest.Result = Except DieselError Nat ∧
    (∀ r : DeleteRequest, messageResultType r = DeleteRequest.Result) := by
  refine ⟨⟨?_, ?_⟩, rfl, fun _ => rfl⟩
  · intro a b hab
    cases a
    cases b
    simpa using hab
  · intro n
    exact ⟨{ id := n }, rfl⟩

/-- C6: a failed path decode or body decode short-circuits the request at
the error translator: the response is the translator's 400 and no
protocol message is built or submitted to the worker pool. -/
theorem decode_failure_short_circuits :
    (∀ (hub : Bool) (raw : String) (db : Except DieselError Nat),
      parseI32 raw = none →
        (deleteRoute hub raw db).submitted = none ∧
        (deleteRoute hub raw db).response =
          Except.ok { status := 400, message := pathDecodeErrText raw }) ∧
    (∀ (β γ : Type) (hub : Bool) (e : String) (handler : β → γ × Response),
      (jsonRoute β γ hub (Except.error e) handler).submitted = none ∧
      (jsonRoute β γ hub (Except.error e) handler).response =
        { status := 400, message := e }) := by
  constructor
  · intro hub raw db hparse
    exact deleteRoute_parse_failure hub raw db hparse
  · intro β γ hub e handler
    exact ⟨rfl, rfl⟩

/-- Witness for C6: the non-numeric path segment "abc" yields 400 and no
submitted message. -/
theorem decode_failure_short_circuits_witness :
    (deleteRoute true "abc" (Except.ok 1)).submitted = none ∧
    (deleteRoute true "abc" (Except.ok 1)).response =
      Except.ok { status := 400, message := pathDecodeErrText "abc" } :=
  decode_failure_short_circuits.1 true "abc" (Except.ok 1) (by decide)

/-- C7: with the PORT environment variable absent, the configured port is
the default 3000 (and startup does not panic). -/
theorem default_port_3000 : portOf none = Except.ok 3000 := rfl

/-- C8: a present but non-u16 PORT value makes startup panic with
"PORT must be a number" instead of falling back to 3000. -/
theorem bad_port_panics (s : String) (h : parseU16 s = none) :
    portOf (some s) =
      Except.error (Panic.expectFailed "PORT must be a number") ∧
    portOf (some s) ≠ Except.ok 3000 := by
  have hp : portOf (some s) =
      Except.error (Panic.expectFailed "PORT must be a number") := by
    unfold portOf
    rw [Option.getD_some, h]
  refine ⟨hp, ?_⟩
  rw [hp]
  intro hcon
  exact Except.noConfusion hcon

/-- Witness for C8 at the out-of-range value "70000". -/
theorem bad_port_panics_witness :
    portOf (some "70000") =
      Except.error (Panic.expectFailed "PORT must be a number") ∧
    portOf (some "70000") ≠ Except.ok 3000 :=
  bad_port_panics "70000" (by decide)

/-- C9: the path identifier is decoded as a 32-bit signed integer — every
accepted identifier lies in the i32 range, and a segment that does not
parse (non-numeric or out of range) gets the translator's 400 and never
produces a Delete protocol message. -/
theorem path_id_is_i32 (s : String) (n : Int) (db : Except DieselError Nat) :
    (parseI32 s = some n → -(2 ^ 31) ≤ n ∧ n < 2 ^ 31) ∧
    (parseI32 s = none →
      (deleteRoute true s db).submitted = none ∧
      (deleteRoute true s db).response =
        Except.ok { status := 400, message := pathDecodeErrText s }) := by
  constructor
  · exact parseI32_range s n
  · exact deleteRoute_parse_failure true s db

/-- Witness for C9: the maximal i32 is accepted and in range; the first
out-of-range value 2147483648 is rejected with 400 and no message. -/
theorem path_id_is_i32_witness :
    (-(2 ^ 31) ≤ (2147483647 : Int) ∧ (2147483647 : Int) < 2 ^ 31) ∧
    ((deleteRoute true "2147483648" (Except.ok 1)).submitted = none ∧
      (deleteRoute true "2147483648" (Except.ok 1)).response =
        Except.ok { status := 400, message := pathDecodeErrText "2147483648" }) :=
  ⟨(path_id_is_i32 "2147483647" 2147483647 (Except.ok 1)).1 (by decide),
   (path_id_is_i32 "2147483648" 0 (Except.ok 1)).2 (by decide)⟩

/-- C10: Sentry and its panic handler are initialized exactly when
SENTRY_DSN is set; with it unset the translators' capture is a no-op on
the disabled hub while the 400 response is unchanged. -/
theorem sentry_optional :
    sentrySetup none = { active := false, panicHandlerOn := false } ∧
    (∀ d : String,
      sentrySetup (some d) = { active := true, panicHandlerOn := true }) ∧
    (∀ m : String,
      (json_error_handler false m).sinkEvents = [] ∧
      (path_error_handler false m).sinkEvents = [] ∧
      (json_error_handler false m).status = (json_error_handler true m).status ∧
      (json_error_handler false m).body = (json_error_handler true m).body ∧
      (path_error_handler false m).status = (path_error_handler true m).status ∧
      (path_error_handler false m).body = (path_error_handler true m).body) :=
  ⟨rfl, fun _ => rfl, fun _ => ⟨rfl, rfl, rfl, rfl, rfl, rfl⟩⟩

end Dziennik
